import Mathlib

/-!
Shallow embedding of the attendance core of the scholar-attendance-portal
repository: role validation and session handling (src/contexts/AuthContext.tsx),
the month range query and per-surface attendance aggregation
(src/pages/StudentDashboard.tsx and src/pages/HodDashboard.tsx), user deletion
(handleDeleteUser of the HoD dashboard), and the attendance upsert described by
the specification. JavaScript numbers are modelled as exact rationals and
Math.round as round half toward positive infinity.
-/

namespace ScholarPortal

/-- Roles of the portal, as the union type of AuthContext.tsx. -/
inductive UserRole
  | student
  | teacher
  | hod
  deriving DecidableEq, Repr

/-- Attendance status, as the union type of the dashboards. -/
inductive AttendanceStatus
  | present
  | absent
  | late
  deriving DecidableEq, Repr

/-- An attendance document as the dashboards read it: the student it belongs
to, its date field (a timestamp, modelled as seconds on a linear clock), and
its status. -/
structure AttendanceRecord where
  studentId : String
  date : Int
  status : AttendanceStatus
  deriving DecidableEq, Repr

/-- Math.round of JavaScript on the exact-rational model of its numeric
inputs: round half toward positive infinity. -/
def mathRound (q : ℚ) : ℤ := Rat.floor (q + 1 / 2)

/-- Count of records with status present, as the filter of StudentDashboard. -/
def presentDays (rs : List AttendanceRecord) : Nat :=
  (rs.filter (fun r => r.status == AttendanceStatus.present)).length

/-- Count of records with status late, as the filter of StudentDashboard. -/
def lateDays (rs : List AttendanceRecord) : Nat :=
  (rs.filter (fun r => r.status == AttendanceStatus.late)).length

/-- Count of records with status absent, as the filter of StudentDashboard. -/
def absentDays (rs : List AttendanceRecord) : Nat :=
  (rs.filter (fun r => r.status == AttendanceStatus.absent)).length

/-- totalDays of StudentDashboard: presentDays + lateDays + absentDays. -/
def totalDays (rs : List AttendanceRecord) : Nat :=
  presentDays rs + lateDays rs + absentDays rs

/-- attendancePercentage of StudentDashboard:
totalDays > 0 ? Math.round(((presentDays + lateDays) / totalDays) * 100) : 0.
The late weight here is 1. -/
def studentAttendancePercentage (rs : List AttendanceRecord) : ℤ :=
  if totalDays rs > 0 then
    mathRound ((((presentDays rs : ℚ) + (lateDays rs : ℚ)) / (totalDays rs : ℚ)) * 100)
  else 0

/-- One step of the counting loop of fetchAttendanceSummaries in
HodDashboard.tsx: increment the counter matching the status of the document
(present, absent, late, in that order of tests). -/
def hodStep (acc : Nat × Nat × Nat) (r : AttendanceRecord) : Nat × Nat × Nat :=
  if r.status == AttendanceStatus.present then (acc.1 + 1, acc.2.1, acc.2.2)
  else if r.status == AttendanceStatus.absent then (acc.1, acc.2.1 + 1, acc.2.2)
  else if r.status == AttendanceStatus.late then (acc.1, acc.2.1, acc.2.2 + 1)
  else acc

/-- The (presentDays, absentDays, lateDays) accumulation of
fetchAttendanceSummaries in HodDashboard.tsx over the query snapshot. -/
def hodCounts (rs : List AttendanceRecord) : Nat × Nat × Nat :=
  rs.foldl hodStep (0, 0, 0)

/-- attendancePercentage of fetchAttendanceSummaries in HodDashboard.tsx:
totalDays > 0 ? Math.round(((presentDays + (lateDays * 0.5)) / totalDays) * 100) : 0.
The late weight here is 0.5. -/
def hodAttendancePercentage (rs : List AttendanceRecord) : ℤ :=
  let c := hodCounts rs
  let t := c.1 + c.2.1 + c.2.2
  if t > 0 then
    mathRound ((((c.1 : ℚ) + (c.2.2 : ℚ) * (1 / 2)) / (t : ℚ)) * 100)
  else 0

/-- A record list with a single late record, on which the two presentation
surfaces disagree. -/
def singleLateList : List AttendanceRecord :=
  [{ studentId := "s1", date := 0, status := AttendanceStatus.late }]

/-- The record multiset of claim C8: present, present, absent. -/
def recordsPPA : List AttendanceRecord :=
  [{ studentId := "s1", date := 0, status := AttendanceStatus.present },
   { studentId := "s1", date := 1, status := AttendanceStatus.present },
   { studentId := "s1", date := 2, status := AttendanceStatus.absent }]

/-- The records of claim C8 with one more present record. -/
def recordsPPAP : List AttendanceRecord :=
  recordsPPA ++ [{ studentId := "s1", date := 3, status := AttendanceStatus.present }]

/-- Client-side auth state of AuthProvider: the React userRole state (the
session role) and the userRole key of localStorage. -/
structure AuthState where
  sessionRole : Option UserRole
  storedRole : Option UserRole
  deriving DecidableEq, Repr

/-- validateRole of AuthContext.tsx: throws when the requested role is hod and
the email is not the hard-coded HOD address; otherwise returns true. No other
role is checked against any authoritative source. -/
def validateRole (email : String) (requestedRole : UserRole) : Except String Bool :=
  if requestedRole == UserRole.hod && email != "nithesh@gmail.com" then
    Except.error ("Only nithesh@gmail.com can be HOD")
  else
    Except.ok true

/-- login of AuthContext.tsx: validateRole, then signInWithEmailAndPassword
(its outcome is the external collaborator, passed as signInOk), then
setUserRole(role) and localStorage.setItem. On any failure the error is
rethrown and the state is not written. -/
def login (signInOk : Bool) (email : String) (role : UserRole)
    (_st : AuthState) : Except String AuthState :=
  match validateRole email role with
  | Except.error e => Except.error e
  | Except.ok _ =>
      if signInOk then
        Except.ok { sessionRole := some role, storedRole := some role }
      else
        Except.error ("Failed to login")

/-- The onAuthStateChanged handler of AuthProvider: when a user is present the
session role is taken straight from the stored localStorage value; no
authoritative source is consulted. -/
def restoreSession (userPresent : Bool) (stored : Option UserRole) : Option UserRole :=
  if userPresent then stored else none

/-- A UserDirectory valuation: the authoritative role each identity holds in
the users collection. The identities used by the divergence theorems are
ordinary students. -/
def sampleDirectory : String → Option UserRole := fun email =>
  if email == "alice@example.com" then some UserRole.student
  else if email == "bob@example.com" then some UserRole.student
  else if email == "nithesh@gmail.com" then some UserRole.hod
  else none

/-- Day index (from 2024-01-01) on which each month of 2024 starts; 2024 is a
leap year, so February holds 29 days. Months are numbered 1 to 12; any other
argument maps past the end of the year. -/
def monthStartDay2024 : Nat → Nat
  | 1 => 0
  | 2 => 31
  | 3 => 60
  | 4 => 91
  | 5 => 121
  | 6 => 152
  | 7 => 182
  | 8 => 213
  | 9 => 244
  | 10 => 274
  | 11 => 305
  | 12 => 335
  | _ => 366

/-- Timestamp, in seconds from 2024-01-01T00:00:00 in the canonical timezone,
of the given month (1 to 12), day-of-month, hour, minute and second of 2024.
The day argument follows the JS Date convention: values outside the month are
carried by day arithmetic from the first of the month, so day 0 is the last
day of the previous month. -/
def ts2024 (m d h mi s : Nat) : Int :=
  ((monthStartDay2024 m : Int) + (d : Int) - 1) * 86400
    + (h : Int) * 3600 + (mi : Int) * 60 + (s : Int)

/-- Timestamp of the JS expression new Date(2024, mIdx, day), with mIdx the
0-based month index, as used by fetchAttendance of StudentDashboard. -/
def jsDateTs (mIdx day : Nat) : Int := ts2024 (mIdx + 1) day 0 0 0

/-- Lower bound Timestamp.fromDate(new Date(selectedYear, selectedMonth, 1))
of the month query of StudentDashboard, for selectedYear 2024. -/
def monthQueryStart (mIdx : Nat) : Int := jsDateTs mIdx 1

/-- Upper bound Timestamp.fromDate(new Date(selectedYear, selectedMonth + 1, 0))
of the month query of StudentDashboard, for selectedYear 2024: midnight at the
last day of the selected month. -/
def monthQueryEnd (mIdx : Nat) : Int := jsDateTs (mIdx + 1) 0

/-- fetchAttendance of StudentDashboard for selectedYear 2024: the conjunction
of the three Firestore where clauses, studentId equality and the two inclusive
date bounds. -/
def fetchAttendanceMonth (uid : String) (mIdx : Nat)
    (docs : List AttendanceRecord) : List AttendanceRecord :=
  docs.filter (fun r =>
    r.studentId == uid
      && decide (monthQueryStart mIdx ≤ r.date)
      && decide (r.date ≤ monthQueryEnd mIdx))

/-- A record of student s1 dated 2024-02-29 (leap day before the March query). -/
def recFeb29 : AttendanceRecord :=
  { studentId := "s1", date := ts2024 2 29 0 0 0, status := AttendanceStatus.present }

/-- A record of student s1 timestamped 2024-03-31 23:59:59. -/
def recMar31Last : AttendanceRecord :=
  { studentId := "s1", date := ts2024 3 31 23 59 59, status := AttendanceStatus.present }

/-- A record of student s1 dated 2024-03-31 at midnight. -/
def recMar31Mid : AttendanceRecord :=
  { studentId := "s1", date := ts2024 3 31 0 0 0, status := AttendanceStatus.present }

/-- A record of student s1 dated 2024-04-01. -/
def recApr1 : AttendanceRecord :=
  { studentId := "s1", date := ts2024 4 1 0 0 0, status := AttendanceStatus.present }

/-- A stored attendance document with its full field set, as the data model of
the specification describes it. -/
structure StoredRecord where
  studentId : String
  date : Int
  status : AttendanceStatus
  createdBy : String
  createdAt : Int
  updatedAt : Option Int
  deriving DecidableEq, Repr

/-- The lookup key of the attendance upsert: a record matches when both its
studentId and its date equal the given pair. -/
def matchesKey (studentId : String) (date : Int) (r : StoredRecord) : Bool :=
  r.studentId == studentId && r.date == date

/-- Modelled from the spec: markAttendance of the AttendanceWriter. Its
implementing page (TeacherDashboard.tsx) is not among the provided sources,
so this follows section 4.2 of the specification: look up the existing record
for (studentId, date); if present, update status and updatedAt; if absent,
insert a new record with createdBy = authorId and createdAt = now. -/
def markAttendance (st : List StoredRecord) (studentId : String) (date : Int)
    (status : AttendanceStatus) (authorId : String) (now : Int) :
    List StoredRecord :=
  if st.any (matchesKey studentId date) then
    st.map (fun r =>
      if matchesKey studentId date r then
        { r with status := status, updatedAt := some now }
      else r)
  else
    st ++ [{ studentId := studentId, date := date, status := status,
             createdBy := authorId, createdAt := now, updatedAt := none }]

/-- The records of the store keyed by the given (studentId, date) pair. -/
def recordsFor (st : List StoredRecord) (studentId : String) (date : Int) :
    List StoredRecord :=
  st.filter (matchesKey studentId date)

/-- The payload of a Firestore document of this app: either a user profile or
an attendance record. -/
inductive DocData
  | userDoc (email : String) (role : UserRole)
  | attendanceDoc (r : StoredRecord)
  deriving DecidableEq, Repr

/-- A document of the Firestore database: the collection it lives in, its
document id, and its data. -/
structure FireDoc where
  coll : String
  docId : String
  data : DocData
  deriving DecidableEq, Repr

/-- deleteDoc(doc(db, coll, docId)): remove the one document at that path and
nothing else. -/
def deleteDoc (db : List FireDoc) (coll docId : String) : List FireDoc :=
  db.filter (fun d => !(d.coll == coll && d.docId == docId))

/-- handleDeleteUser of the HoD dashboard: its only store operation is
deleteDoc(doc(db, users, userId)); the rest of the handler only updates the
local React lists. -/
def handleDeleteUser (db : List FireDoc) (userId : String) : List FireDoc :=
  deleteDoc db "users" userId

lemma mathRound_eq_floor (q : ℚ) : mathRound q = ⌊q + 1 / 2⌋ := by
  rw [mathRound, Rat.floor_def, Rat.floor_def']

lemma hodCounts_foldl (rs : List AttendanceRecord) (p a l : ℕ) :
    List.foldl hodStep (p, a, l) rs =
      (p + presentDays rs, a + absentDays rs, l + lateDays rs) := by
  induction rs generalizing p a l with
  | nil => simp [presentDays, absentDays, lateDays]
  | cons r rs ih =>
      rw [List.foldl_cons]
      cases hs : r.status <;>
        simp [hodStep, hs, ih, presentDays, absentDays, lateDays, List.filter_cons] <;>
        omega

lemma hodCounts_eq (rs : List AttendanceRecord) :
    hodCounts rs = (presentDays rs, absentDays rs, lateDays rs) := by
  simpa using hodCounts_foldl rs 0 0 0

lemma totalDays_eq_length (rs : List AttendanceRecord) : totalDays rs = rs.length := by
  induction rs with
  | nil => rfl
  | cons r rs ih =>
      cases hs : r.status <;>
        simp_all [totalDays, presentDays, absentDays, lateDays, List.filter_cons] <;>
        omega

lemma mathRound_nonneg {q : ℚ} (h : 0 ≤ q) : 0 ≤ mathRound q := by
  rw [mathRound_eq_floor]
  exact Int.le_floor.mpr (by push_cast; linarith)

lemma mathRound_le_hundred {q : ℚ} (h : q ≤ 100) : mathRound q ≤ 100 := by
  rw [mathRound_eq_floor]
  have h2 : ⌊q + 1 / 2⌋ < 101 := Int.floor_lt.mpr (by push_cast; linarith)
  omega

lemma mathRound_fraction_bounds (n t : ℚ) (hn : 0 ≤ n) (ht : 0 < t) (hle : n ≤ t) :
    0 ≤ mathRound (n / t * 100) ∧ mathRound (n / t * 100) ≤ 100 := by
  constructor
  · exact mathRound_nonneg (by positivity)
  · refine mathRound_le_hundred ?_
    have h1 : n / t ≤ 1 := div_le_one_of_le₀ hle (le_of_lt ht)
    linarith

/-- Claim C2 is false of the code: on a list holding one late record, the
StudentDashboard computation (late weight 1) yields 100 while the HodDashboard
computation (late weight 0.5) yields 50, so the two attendance-percentage
functions are not equal and no single canonical late weight is used. -/
theorem late_weight_surfaces_disagree :
    studentAttendancePercentage singleLateList = 100 ∧
    hodAttendancePercentage singleLateList = 50 ∧
    studentAttendancePercentage singleLateList ≠ hodAttendancePercentage singleLateList := by
  have hp : presentDays singleLateList = 0 := rfl
  have hl : lateDays singleLateList = 1 := rfl
  have ha : absentDays singleLateList = 0 := rfl
  have hc : hodCounts singleLateList = (0, 0, 1) := rfl
  refine ⟨?_, ?_, ?_⟩ <;>
    simp only [studentAttendancePercentage, hodAttendancePercentage, totalDays,
      hp, hl, ha, hc] <;>
    norm_num [mathRound, Rat.floor_def']

/-- Claim C2 (amended): the two surfaces use different late weights (1 in
StudentDashboard, 0.5 in HodDashboard), so their attendancePercentage
computations agree exactly on record lists holding no late record; for every
such list the two results are equal. -/
theorem percentages_agree_of_no_late (rs : List AttendanceRecord)
    (h : lateDays rs = 0) :
    studentAttendancePercentage rs = hodAttendancePercentage rs := by
  have hc := hodCounts_eq rs
  simp only [studentAttendancePercentage, hodAttendancePercentage, totalDays, hc, h]
  norm_num

theorem percentages_agree_of_no_late_witness :
    lateDays [⟨"s1", 0, AttendanceStatus.present⟩] = 0 ∧
    studentAttendancePercentage [⟨"s1", 0, AttendanceStatus.present⟩] =
      hodAttendancePercentage [⟨"s1", 0, AttendanceStatus.present⟩] :=
  ⟨by decide, percentages_agree_of_no_late _ (by decide)⟩

/-- Claim C6: on the empty record list both surfaces return
attendancePercentage 0; the totalDays = 0 guard takes the zero branch, so the
division is never evaluated. -/
theorem summarize_empty_gives_zero :
    studentAttendancePercentage [] = 0 ∧ hodAttendancePercentage [] = 0 :=
  ⟨rfl, rfl⟩

/-- Claim C7: on both surfaces the summary satisfies
totalDays = presentDays + absentDays + lateDays, where the three components
count the records bearing the corresponding status; the three statuses
partition every record list, so totalDays is its length. -/
theorem totalDays_partitions (rs : List AttendanceRecord) :
    totalDays rs = presentDays rs + absentDays rs + lateDays rs ∧
    hodCounts rs = (presentDays rs, absentDays rs, lateDays rs) ∧
    totalDays rs = rs.length :=
  ⟨by unfold totalDays; omega, hodCounts_eq rs, totalDays_eq_length rs⟩

/-- Claim C8: on the HoD surface the records (present, present, absent) give
attendancePercentage round(100 * 2 / 3) = 67, adding one more present record
gives round(100 * 3 / 4) = 75, and the percentage strictly increases. -/
theorem percentage_increases_with_present :
    hodAttendancePercentage recordsPPA = 67 ∧
    hodAttendancePercentage recordsPPAP = 75 ∧
    hodAttendancePercentage recordsPPA < hodAttendancePercentage recordsPPAP := by
  have h3 : hodCounts recordsPPA = (2, 1, 0) := rfl
  have h4 : hodCounts recordsPPAP = (3, 1, 0) := rfl
  refine ⟨?_, ?_, ?_⟩ <;>
    simp only [hodAttendancePercentage, h3, h4] <;>
    norm_num [mathRound, Rat.floor_def']

/-- Claim C10: every attendancePercentage of either surface lies between 0 and
100, under either late weight, since the weighted numerator never exceeds
totalDays. -/
theorem percentages_within_bounds (rs : List AttendanceRecord) :
    (0 ≤ studentAttendancePercentage rs ∧ studentAttendancePercentage rs ≤ 100) ∧
    (0 ≤ hodAttendancePercentage rs ∧ hodAttendancePercentage rs ≤ 100) := by
  have hc := hodCounts_eq rs
  constructor
  · rw [studentAttendancePercentage]
    by_cases ht : 0 < totalDays rs
    · rw [if_pos ht]
      exact mathRound_fraction_bounds _ _ (by positivity)
        (by exact_mod_cast ht)
        (by
          rw [totalDays]
          push_cast
          linarith [Nat.cast_nonneg (α := ℚ) (absentDays rs)])
    · rw [if_neg ht]; omega
  · rw [hodAttendancePercentage, hc]
    by_cases ht : 0 < presentDays rs + absentDays rs + lateDays rs
    · simp only []
      rw [if_pos ht]
      refine mathRound_fraction_bounds _ _ (by positivity) (by exact_mod_cast ht) ?_
      push_cast
      have hl2 : (lateDays rs : ℚ) * (1 / 2) ≤ (lateDays rs : ℚ) := by
        have := Nat.cast_nonneg (α := ℚ) (lateDays rs)
        linarith
      linarith [Nat.cast_nonneg (α := ℚ) (absentDays rs)]
    · simp only []
      rw [if_neg ht]
      omega

/-- Claim C1 fails on the code: for the identity alice@example.com, whose
authoritative role in the directory is student, login with requestedRole
teacher does not raise an AuthorizationError; it establishes a session whose
role is teacher and caches that role, because validateRole never consults the
directory for the teacher role. -/
theorem login_grants_teacher_to_student_identity :
    sampleDirectory ("alice@example.com") = some UserRole.student ∧
    login true ("alice@example.com") UserRole.teacher
        { sessionRole := none, storedRole := none } =
      Except.ok { sessionRole := some UserRole.teacher,
                  storedRole := some UserRole.teacher } := by
  constructor <;> rfl

/-- Claim C4 fails on the code: the identity bob@example.com has authoritative
role student, yet login stores the requested teacher role without a directory
lookup, and session restoration takes the role straight from the client cache,
so a reachable state has session role teacher while the directory holds
student. -/
theorem session_restore_trusts_cached_role :
    sampleDirectory ("bob@example.com") = some UserRole.student ∧
    login true ("bob@example.com") UserRole.teacher
        { sessionRole := none, storedRole := none } =
      Except.ok { sessionRole := some UserRole.teacher,
                  storedRole := some UserRole.teacher } ∧
    restoreSession true (some UserRole.teacher) = some UserRole.teacher := by
  refine ⟨rfl, rfl, rfl⟩

/-- Claim C3 fails on the code: the March 2024 query (month index 2) does
exclude the 2024-02-29 and 2024-04-01 records, but its upper bound is the
midnight timestamp of March 31, so the record timestamped 2024-03-31 23:59:59
is excluded as well, while a record at midnight of March 31 is included. -/
theorem march_query_boundary :
    fetchAttendanceMonth ("s1") 2 [recFeb29, recMar31Last, recApr1, recMar31Mid]
        = [recMar31Mid] ∧
    recMar31Last.date = ts2024 3 31 23 59 59 ∧
    recMar31Last ∉
      fetchAttendanceMonth ("s1") 2 [recFeb29, recMar31Last, recApr1, recMar31Mid] := by
  refine ⟨by decide, rfl, by decide⟩

/-- Claim C5: markAttendance is an upsert keyed by (studentId, date). From a
store holding no record for (S, D), marking with s1 then with s2 leaves
exactly one record for (S, D); its status is s2, its createdBy and createdAt
come from the first call, and its updatedAt from the second. -/
theorem markAttendance_upsert (st : List StoredRecord) (S : String) (D : Int)
    (s1 s2 : AttendanceStatus) (a1 a2 : String) (t1 t2 : Int)
    (h : recordsFor st S D = []) :
    recordsFor (markAttendance (markAttendance st S D s1 a1 t1) S D s2 a2 t2) S D =
      [{ studentId := S, date := D, status := s2, createdBy := a1,
         createdAt := t1, updatedAt := some t2 }] := by
  have hkey : ∀ r ∈ st, matchesKey S D r = false := by
    intro r hr
    by_contra hfalse
    have hmem : r ∈ st.filter (matchesKey S D) :=
      List.mem_filter.mpr ⟨hr, by
        revert hfalse; cases matchesKey S D r <;> simp⟩
    rw [recordsFor] at h
    rw [h] at hmem
    exact absurd hmem (List.not_mem_nil r)
  have hnewkey : matchesKey S D
      { studentId := S, date := D, status := s1, createdBy := a1,
        createdAt := t1, updatedAt := none } = true := by
    simp [matchesKey]
  have hany1 : st.any (matchesKey S D) = false := by
    rw [List.any_eq_false]
    intro r hr
    simp [hkey r hr]
  have h1 : markAttendance st S D s1 a1 t1 =
      st ++ [{ studentId := S, date := D, status := s1, createdBy := a1,
               createdAt := t1, updatedAt := none }] := by
    rw [markAttendance, hany1]
    simp
  have hany2 : (st ++ [({ studentId := S, date := D, status := s1, createdBy := a1,
                          createdAt := t1, updatedAt := none } : StoredRecord)]).any
        (matchesKey S D) = true := by
    rw [List.any_append]
    simp [hnewkey]
  rw [h1, markAttendance, hany2, if_pos rfl, recordsFor, List.map_append,
    List.filter_append]
  have hmap : st.map (fun r => if matchesKey S D r then
      { r with status := s2, updatedAt := some t2 } else r) = st := by
    conv_rhs => rw [← List.map_id st]
    apply List.map_congr_left
    intro r hr
    simp [hkey r hr]
  rw [hmap]
  rw [recordsFor] at h
  rw [h]
  simp [matchesKey]

theorem markAttendance_upsert_witness :
    recordsFor [] ("s1") 0 = [] ∧
    recordsFor (markAttendance
        (markAttendance [] ("s1") 0 AttendanceStatus.present ("t1") 10)
        ("s1") 0 AttendanceStatus.absent ("t2") 20) ("s1") 0 =
      [{ studentId := "s1", date := 0, status := AttendanceStatus.absent,
         createdBy := "t1", createdAt := 10, updatedAt := some 20 }] :=
  ⟨rfl, markAttendance_upsert [] ("s1") 0 AttendanceStatus.present
    AttendanceStatus.absent ("t1") ("t2") 10 20 rfl⟩

/-- Claim C9: deleting a user does not cascade to attendance records. Every
document of the attendance collection survives handleDeleteUser unchanged (so
in particular every attendance record with studentId = U does), and the users
collection loses exactly the document with id U. -/
theorem delete_user_no_cascade (db : List FireDoc) (U : String) :
    (handleDeleteUser db U).filter (fun d => d.coll == "attendance") =
      db.filter (fun d => d.coll == "attendance") ∧
    (handleDeleteUser db U).filter (fun d => d.coll == "users") =
      db.filter (fun d => d.coll == "users" && d.docId != U) := by
  constructor
  · rw [handleDeleteUser, deleteDoc, List.filter_filter]
    apply List.filter_congr
    intro d _
    by_cases hc : d.coll = "attendance"
    · simp [hc]
    · simp [hc]
  · rw [handleDeleteUser, deleteDoc, List.filter_filter]
    apply List.filter_congr
    intro d _
    by_cases hc : d.coll = "users"
    · by_cases hi : d.docId = U <;> simp [hc, hi, bne]
    · have hb : (d.coll == "users") = false := beq_eq_false_iff_ne.mpr hc
      simp [hb]

end ScholarPortal
